import Mathlib

/-!
Verification of the position accounting engine of the crf-tracker repository.

The embedding mirrors the TypeScript sources:
  * the position reducer inside fetchTrades (services/databaseService, newer
    variant with latest_price support),
  * the lifecycle operation partialCloseTradeInDb,
  * calculateMaxDrawdown from services/analyticsService.ts,
  * the breakeven computation of PositionDetailsModal in components/Operations.tsx.

JavaScript numbers are modelled as rationals; timestamps (milliseconds since
epoch) as integers.  The JavaScript falsy-or operator x || y on numbers is
modelled explicitly where the source uses it.
-/

set_option autoImplicit false

namespace CrfTracker

/-- Side of a fill: the literal union of buy and sell of the source. -/
inductive Side where
  | buy
  | sell
deriving DecidableEq, Repr

/-- TradeType enum of types.ts: LONG | SHORT. -/
inductive TradeType where
  | LONG
  | SHORT
deriving DecidableEq, Repr

/-- TradeStatus enum of types.ts / the status column of operation_groups:
OPEN | CLOSED. -/
inductive TradeStatus where
  | OPEN
  | CLOSED
deriving DecidableEq, Repr

/-- One row of operation_fills, as used by the reducer and the close path:
side, quantity, price, the fee breakdown and the fill timestamp
(milliseconds since epoch, used only for chronological ordering). -/
structure Fill where
  side : Side
  quantity : ℚ
  price : ℚ
  open_fee : ℚ
  close_fee : ℚ
  night_fee : ℚ
  fill_timestamp : ℤ
deriving DecidableEq, Repr

/-- JavaScript x || y on numbers: y when x is falsy (0), else x.
Used for the account commission fallbacks (rate || 0.25, rate || 7.0). -/
def orFalsy (x y : ℚ) : ℚ := if x = 0 then y else x

/-- reduce((sum, f) => sum + f.quantity, 0) over a list of fills. -/
def totalQuantity (fs : List Fill) : ℚ :=
  fs.foldl (fun s f => s + f.quantity) 0

/-- reduce((sum, f) => sum + f.price * f.quantity, 0) over a list of fills. -/
def totalValue (fs : List Fill) : ℚ :=
  fs.foldl (fun s f => s + f.price * f.quantity) 0

/-- fills.filter of the buy-side fills. -/
def buyFills (fs : List Fill) : List Fill :=
  fs.filter (fun f => f.side = Side.buy)

/-- fills.filter of the sell-side fills. -/
def sellFills (fs : List Fill) : List Fill :=
  fs.filter (fun f => f.side = Side.sell)

/-- totalBuyQuantity of the reducer. -/
def totalBuyQuantity (fs : List Fill) : ℚ := totalQuantity (buyFills fs)

/-- totalSellQuantity of the reducer. -/
def totalSellQuantity (fs : List Fill) : ℚ := totalQuantity (sellFills fs)

/-- First element of fills.sort((a, b) => timestamp difference): the fill
with the smallest timestamp, earliest occurrence winning ties (Array.sort
is stable). -/
def earliestFill : List Fill → Option Fill
  | [] => none
  | f :: fs =>
      some (fs.foldl (fun acc g =>
        if g.fill_timestamp < acc.fill_timestamp then g else acc) f)

/-- tradeType branch of the reducer: LONG when more buys, SHORT when more
sells; on a flat position the side of the chronologically first fill decides
(the ternary firstFill side check against buy, so a missing first fill yields
SHORT). -/
def tradeTypeOf (fs : List Fill) : TradeType :=
  if totalBuyQuantity fs > totalSellQuantity fs then TradeType.LONG
  else if totalSellQuantity fs > totalBuyQuantity fs then TradeType.SHORT
  else
    match earliestFill fs with
    | some f => if f.side = Side.buy then TradeType.LONG else TradeType.SHORT
    | none => TradeType.SHORT

/-- netQuantity branch of the reducer (0 on a flat position). -/
def netQuantityOf (fs : List Fill) : ℚ :=
  if totalBuyQuantity fs > totalSellQuantity fs then
    totalBuyQuantity fs - totalSellQuantity fs
  else if totalSellQuantity fs > totalBuyQuantity fs then
    totalSellQuantity fs - totalBuyQuantity fs
  else 0

/-- openPrice branch of the reducer: quantity weighted average price of the
majority side; on a flat position firstFill?.price || 0. -/
def openPriceOf (fs : List Fill) : ℚ :=
  if totalBuyQuantity fs > totalSellQuantity fs then
    if (buyFills fs).length > 0 then totalValue (buyFills fs) / totalBuyQuantity fs else 0
  else if totalSellQuantity fs > totalBuyQuantity fs then
    if (sellFills fs).length > 0 then totalValue (sellFills fs) / totalSellQuantity fs else 0
  else
    match earliestFill fs with
    | some f => f.price
    | none => 0

/-- openingFills = tradeType === LONG ? buyFills : sellFills. -/
def openingFills (fs : List Fill) : List Fill :=
  if tradeTypeOf fs = TradeType.LONG then buyFills fs else sellFills fs

/-- closingFills = tradeType === LONG ? sellFills : buyFills. -/
def closingFills (fs : List Fill) : List Fill :=
  if tradeTypeOf fs = TradeType.LONG then sellFills fs else buyFills fs

/-- originalQuantity: cumulative quantity of the opening side. -/
def originalQuantityOf (fs : List Fill) : ℚ := totalQuantity (openingFills fs)

/-- closedQuantity: cumulative quantity of the closing side. -/
def closedQuantityOf (fs : List Fill) : ℚ := totalQuantity (closingFills fs)

/-- isPartiallyCloseD flag of the reducer. -/
def isPartiallyCloseDOf (status : TradeStatus) (fs : List Fill) : Bool :=
  status = TradeStatus.OPEN ∧ netQuantityOf fs > 0 ∧
    netQuantityOf fs < originalQuantityOf fs

/-- totalOpenFees: sum of (f.open_fee || 0) over all fills. -/
def totalOpenFeesOf (fs : List Fill) : ℚ :=
  fs.foldl (fun s f => s + f.open_fee) 0

/-- totalCloseFees: sum of (f.close_fee || 0) over all fills. -/
def totalCloseFeesOf (fs : List Fill) : ℚ :=
  fs.foldl (fun s f => s + f.close_fee) 0

/-- totalNightFees of the reducer: sum of (f.night_fee || 0) over all fills. -/
def totalNightFeesOf (fs : List Fill) : ℚ :=
  fs.foldl (fun s f => s + f.night_fee) 0

/-- totalFees = totalOpenFees + totalCloseFees + totalNightFees. -/
def totalFeesOf (fs : List Fill) : ℚ :=
  totalOpenFeesOf fs + totalCloseFeesOf fs + totalNightFeesOf fs

/-- realizedPnl of the partially closed branch: closing side value against
the closed fraction of the opening value, minus all fees, sign per
direction. -/
def realizedPnlOf (fs : List Fill) : ℚ :=
  if tradeTypeOf fs = TradeType.LONG then
    totalValue (closingFills fs)
      - totalValue (openingFills fs) * (closedQuantityOf fs / originalQuantityOf fs)
      - totalFeesOf fs
  else
    totalValue (openingFills fs) * (closedQuantityOf fs / originalQuantityOf fs)
      - totalValue (closingFills fs) - totalFeesOf fs

/-- unrealizedPnl of the partially closed branch: marked from latestPrice
when present and positive (if (latestPrice && latestPrice > 0)), else left
at its initialisation of 0.  No fee is deducted here. -/
def unrealizedPnlOf (fs : List Fill) (latestPrice : Option ℚ) : ℚ :=
  match latestPrice with
  | some lp =>
      if lp > 0 then
        if tradeTypeOf fs = TradeType.LONG then
          (lp - openPriceOf fs) * netQuantityOf fs
        else
          (openPriceOf fs - lp) * netQuantityOf fs
      else 0
  | none => 0

/-- pnl of the reducer, by status branch: closed positions use the realized
formula over full side values; partially closed positions expose the
unrealized leg; otherwise the open branch marks from latestPrice or falls
back to -totalFees. -/
def pnlOf (status : TradeStatus) (fs : List Fill) (latestPrice : Option ℚ) : ℚ :=
  if status = TradeStatus.CLOSED then
    if tradeTypeOf fs = TradeType.LONG then
      totalValue (closingFills fs) - totalValue (openingFills fs) - totalFeesOf fs
    else
      totalValue (openingFills fs) - totalValue (closingFills fs) - totalFeesOf fs
  else if isPartiallyCloseDOf status fs then
    unrealizedPnlOf fs latestPrice
  else
    match latestPrice with
    | some lp =>
        if lp > 0 then
          if tradeTypeOf fs = TradeType.LONG then
            (lp - openPriceOf fs) * netQuantityOf fs - totalFeesOf fs
          else
            (openPriceOf fs - lp) * netQuantityOf fs - totalFeesOf fs
        else -totalFeesOf fs
    | none => -totalFeesOf fs

/-- avgClosePrice: quantity weighted average of the closing side, 0 when
nothing was closed. -/
def avgClosePriceOf (fs : List Fill) : ℚ :=
  if closedQuantityOf fs > 0 then
    totalValue (closingFills fs) / closedQuantityOf fs
  else 0

/-- The Trade object built by the reducer (derived snapshot).  netQuantity
is the internal derived value; quantity is the exposed field
Math.abs(netQuantity) || Math.max(totalBuyQuantity, totalSellQuantity). -/
structure Snapshot where
  netQuantity : ℚ
  quantity : ℚ
  openPrice : ℚ
  closePrice : Option ℚ
  status : TradeStatus
  pnl : ℚ
  realizedPnl : Option ℚ
  unrealizedPnl : Option ℚ
  tradeType : TradeType
  feesOpen : ℚ
  feesClose : ℚ
  feesNight : ℚ
  feesTotal : ℚ
  originalQuantity : ℚ
  isPartiallyCloseD : Bool
deriving DecidableEq, Repr

/-- The reducer of fetchTrades: folds one operation group (its status, its
fills, and the symbol latest_price) into the derived snapshot. -/
def reduceGroup (status : TradeStatus) (fs : List Fill) (latestPrice : Option ℚ) :
    Snapshot :=
  { netQuantity := netQuantityOf fs
    quantity :=
      if |netQuantityOf fs| ≠ 0 then |netQuantityOf fs|
      else max (totalBuyQuantity fs) (totalSellQuantity fs)
    openPrice := openPriceOf fs
    closePrice :=
      if (status = TradeStatus.CLOSED ∨ isPartiallyCloseDOf status fs)
          ∧ avgClosePriceOf fs > 0 then
        some (avgClosePriceOf fs)
      else none
    status := status
    pnl := pnlOf status fs latestPrice
    realizedPnl :=
      if isPartiallyCloseDOf status fs then some (realizedPnlOf fs) else none
    unrealizedPnl :=
      if isPartiallyCloseDOf status fs then some (unrealizedPnlOf fs latestPrice)
      else none
    tradeType := tradeTypeOf fs
    feesOpen := totalOpenFeesOf fs
    feesClose := totalCloseFeesOf fs
    feesNight := totalNightFeesOf fs
    feesTotal := totalFeesOf fs
    originalQuantity := originalQuantityOf fs
    isPartiallyCloseD := isPartiallyCloseDOf status fs }

/-- One operation_groups row as loaded by partialCloseTradeInDb: status,
open timestamp (open_at || created_at, in ms), its fills, and the joined
account commission settings. -/
structure Group where
  status : TradeStatus
  open_at : ℤ
  closed_at : Option ℤ
  fills : List Fill
  open_close_commission : ℚ
  night_commission : ℚ
deriving DecidableEq, Repr

/-- daysHeld = Math.ceil((closeDate - openDate) / (1000*60*60*24)). -/
def daysHeldOf (openMs closeMs : ℤ) : ℤ :=
  ⌈((closeMs - openMs : ℤ) : ℚ) / 86400000⌉

/-- totalPositionValue = sum of fill.quantity * fill.price over all fills of
the group. -/
def totalPositionValueOf (fs : List Fill) : ℚ :=
  fs.foldl (fun s f => s + f.quantity * f.price) 0

/-- nightCommissionPerDay = totalPositionValue * (night_commission || 7.0)
/ 100 / 365. -/
def nightCommissionPerDayOf (g : Group) : ℚ :=
  totalPositionValueOf g.fills * orFalsy g.night_commission 7 / 100 / 365

/-- totalNightFees = nightCommissionPerDay * daysHeld, for a close happening
at closeMs. -/
def totalNightFeesAtClose (g : Group) (closeMs : ℤ) : ℚ :=
  nightCommissionPerDayOf g * (daysHeldOf g.open_at closeMs : ℚ)

/-- The local netQuantity of partialCloseTradeInDb:
totalBuyQuantity - totalSellQuantity, signed. -/
def netQuantityDb (g : Group) : ℚ :=
  totalBuyQuantity g.fills - totalSellQuantity g.fills

/-- totalOpenQuantity = Math.abs(netQuantity). -/
def totalOpenQuantityDb (g : Group) : ℚ := |netQuantityDb g|

/-- quantityToClose = totalOpenQuantity * closePercentage / 100. -/
def quantityToCloseDb (g : Group) (closePercentage : ℚ) : ℚ :=
  totalOpenQuantityDb g * closePercentage / 100

/-- closingSide: sell to close a net long, buy to close a net short. -/
def closingSideDb (g : Group) : Side :=
  if netQuantityDb g > 0 then Side.sell else Side.buy

/-- closingFees = positionValue * (open_close_commission || 0.25) / 100
with positionValue = quantityToClose * closePrice. -/
def closingFeesDb (g : Group) (closePrice closePercentage : ℚ) : ℚ :=
  quantityToCloseDb g closePercentage * closePrice
    * orFalsy g.open_close_commission (1/4) / 100

/-- proportionalNightFees = totalNightFees * closePercentage / 100. -/
def proportionalNightFeesDb (g : Group) (closeMs : ℤ) (closePercentage : ℚ) : ℚ :=
  totalNightFeesAtClose g closeMs * closePercentage / 100

/-- The closing fill inserted by partialCloseTradeInDb; its row timestamp
takes the database default (the time of the call). -/
def closingFillDb (g : Group) (closeMs : ℤ) (closePrice closePercentage : ℚ) : Fill :=
  { side := closingSideDb g
    quantity := quantityToCloseDb g closePercentage
    price := closePrice
    open_fee := 0
    close_fee := closingFeesDb g closePrice closePercentage
    night_fee := proportionalNightFeesDb g closeMs closePercentage
    fill_timestamp := closeMs }

/-- partialCloseTradeInDb(tradeId, closePrice, closePercentage).  The group
row stands in for the tradeId lookup and closeMs for new Date() at the time
of the call.  Error strings are the thrown messages of the source.  On a
100% close the night fee of every fill of the group (the just-inserted
closing fill included, because the update is keyed on group_id) is
overwritten with totalNightFees divided by the number of fills read before
the insert, and the group is marked closed. -/
def partialCloseTradeInDb (g : Group) (closeMs : ℤ)
    (closePrice closePercentage : ℚ) : Except String Group :=
  if closePercentage ≤ 0 ∨ closePercentage > 100 then
    Except.error "Close percentage must be between 0.01% and 100%"
  else if totalOpenQuantityDb g ≤ 0 then
    Except.error "No open quantity to close"
  else if quantityToCloseDb g closePercentage < 1/100 then
    Except.error "Closing quantity too small. Minimum is 0.01 units."
  else if closePercentage ≥ 100 then
    Except.ok
      { g with
        status := TradeStatus.CLOSED
        closed_at := some closeMs
        fills := (g.fills ++ [closingFillDb g closeMs closePrice closePercentage]).map
          fun f =>
            { f with
              night_fee := totalNightFeesAtClose g closeMs / (g.fills.length : ℚ) } }
  else
    Except.ok
      { g with fills := g.fills ++ [closingFillDb g closeMs closePrice closePercentage] }

/-- The view of a trade used by calculateMaxDrawdown: its close timestamp
(ms) and its pnl. -/
structure ClosedTrade where
  closedAt : ℤ
  pnl : ℚ
deriving DecidableEq, Repr

/-- Stable insertion of a trade into a list already sorted by closedAt
ascending (equal keys keep their original relative order, as Array.sort
with the closedAt comparator does). -/
def insertByClosedAt (t : ClosedTrade) : List ClosedTrade → List ClosedTrade
  | [] => [t]
  | x :: xs =>
      if x.closedAt ≤ t.closedAt then x :: insertByClosedAt t xs
      else t :: x :: xs

/-- [...trades].sort((a, b) => closedAt(a) - closedAt(b)). -/
def sortByClosedAt (ts : List ClosedTrade) : List ClosedTrade :=
  ts.foldl (fun acc t => insertByClosedAt t acc) []

/-- calculateMaxDrawdown of analyticsService.ts: peak of the running P&L sum
is tracked from 0; drawdown = peak - runningPnl, maximised over the
chronologically sorted trades. -/
def calculateMaxDrawdown (trades : List ClosedTrade) : ℚ :=
  if trades.length = 0 then 0
  else
    let sorted := sortByClosedAt trades
    (sorted.foldl
      (fun (st : ℚ × ℚ × ℚ) t =>
        let runningPnl := st.2.2 + t.pnl
        let peak := if runningPnl > st.1 then runningPnl else st.1
        let drawdown := peak - runningPnl
        let maxDD := if drawdown > st.2.1 then drawdown else st.2.1
        (peak, maxDD, runningPnl))
      (0, 0, 0)).2.1

/-- breakevenPrice of PositionDetailsModal (components/Operations.tsx):
openPrice plus-or-minus totalFees / trade.quantity by direction, where the
trade object is the reducer snapshot. -/
def breakevenPriceOf (t : Snapshot) : ℚ :=
  if t.tradeType = TradeType.LONG then t.openPrice + t.feesTotal / t.quantity
  else t.openPrice - t.feesTotal / t.quantity

/-- Modelled from the spec wording of claim C8 for comparison:
breakevenPrice = openPrice plus-or-minus totalFees / max(netQuantity, 1),
sign per direction. -/
def breakevenPriceSpecC8 (t : Snapshot) : ℚ :=
  if t.tradeType = TradeType.LONG then
    t.openPrice + t.feesTotal / max t.netQuantity 1
  else t.openPrice - t.feesTotal / max t.netQuantity 1

/-- Two millisecond timestamps fall on the same UTC calendar day. -/
def sameUtcDay (a b : ℤ) : Bool :=
  a.fdiv 86400000 = b.fdiv 86400000

/-- The chronological closed-trade P&L sequence of Scenario D:
[+50, -250, +640, -200, +150], with strictly increasing close
timestamps. -/
def scenarioDTrades : List ClosedTrade :=
  [⟨1, 50⟩, ⟨2, -250⟩, ⟨3, 640⟩, ⟨4, -200⟩, ⟨5, 150⟩]

/-- Opening fill of the witness scenarios: buy 10 units at 150 with the
0.25% open commission fee of 3.75. -/
def fEx : Fill :=
  { side := Side.buy, quantity := 10, price := 150, open_fee := 15/4
    close_fee := 0, night_fee := 0, fill_timestamp := 0 }

/-- Closing fill of the partially closed witness scenario: sell 4 units at
155 with close fee 1.55. -/
def pExClose : Fill :=
  { side := Side.sell, quantity := 4, price := 155, open_fee := 0
    close_fee := 31/20, night_fee := 0, fill_timestamp := 1 }

/-- Fills of a partially closed LONG position: open 10 at 150, close 4 at
155. -/
def pEx : List Fill := [fEx, pExClose]

/-- A fully round-tripped LONG position: buy 10 at 150 (open fee 3.75),
sell 10 at 110 (close fee 10, night fee 10). -/
def closedFillsEx : List Fill :=
  [fEx,
   { side := Side.sell, quantity := 10, price := 110, open_fee := 0
     close_fee := 10, night_fee := 10, fill_timestamp := 5 }]

/-- The open example group: one buy fill of 10 at 150, opened at time 0,
with account commissions 0.25% and 7%. -/
def gEx : Group :=
  { status := TradeStatus.OPEN, open_at := 0, closed_at := none, fills := [fEx]
    open_close_commission := 1/4, night_commission := 7 }

/-- The stored state after closing gEx fully at 155 one hour after opening:
daysHeld = 1, totalNightFees = 1500*7/100/365 = 21/73, and both fills carry
night fee 21/73 after the redistribution over the single pre-existing
fill. -/
def gExClosed : Group :=
  { status := TradeStatus.CLOSED, open_at := 0, closed_at := some 3600000
    fills :=
      [{ side := Side.buy, quantity := 10, price := 150, open_fee := 15/4
         close_fee := 0, night_fee := 21/73, fill_timestamp := 0 },
       { side := Side.sell, quantity := 10, price := 155, open_fee := 0
         close_fee := 31/8, night_fee := 21/73, fill_timestamp := 3600000 }]
    open_close_commission := 1/4, night_commission := 7 }

/-- The stored state after closing gEx fully at 155 at the very opening
timestamp: daysHeld = 0, so every stored night fee is 0. -/
def gExClosed0 : Group :=
  { status := TradeStatus.CLOSED, open_at := 0, closed_at := some 0
    fills :=
      [{ side := Side.buy, quantity := 10, price := 150, open_fee := 15/4
         close_fee := 0, night_fee := 0, fill_timestamp := 0 },
       { side := Side.sell, quantity := 10, price := 155, open_fee := 0
         close_fee := 31/8, night_fee := 0, fill_timestamp := 0 }]
    open_close_commission := 1/4, night_commission := 7 }

/-- The stored state after a 50% close of gEx at price 0, one hour after
opening: the call is accepted although closePrice = 0 violates the claimed
closePrice > 0 validation. -/
def gExHalfClosedAtZero : Group :=
  { status := TradeStatus.OPEN, open_at := 0, closed_at := none
    fills :=
      [fEx,
       { side := Side.sell, quantity := 5, price := 0, open_fee := 0
         close_fee := 0, night_fee := 21/146, fill_timestamp := 3600000 }]
    open_close_commission := 1/4, night_commission := 7 }

/-! ## Supporting lemmas -/

theorem foldl_add_map (f : Fill → ℚ) (a : ℚ) (fs : List Fill) :
    fs.foldl (fun s x => s + f x) a = a + (fs.map f).sum := by
  induction fs generalizing a with
  | nil => simp
  | cons x xs ih => simp [ih, add_assoc]

theorem totalQuantity_eq_sum (fs : List Fill) :
    totalQuantity fs = (fs.map Fill.quantity).sum := by
  simpa using foldl_add_map Fill.quantity 0 fs

theorem totalNightFeesOf_eq_sum (fs : List Fill) :
    totalNightFeesOf fs = (fs.map Fill.night_fee).sum := by
  simpa using foldl_add_map Fill.night_fee 0 fs

/-- The quantity conservation identity of the reducer: the closing-side
quantity plus the net quantity is the opening-side quantity, whatever the
fills are. -/
theorem closed_add_net_eq_original (fs : List Fill) :
    closedQuantityOf fs + netQuantityOf fs = originalQuantityOf fs := by
  rcases lt_trichotomy (totalBuyQuantity fs) (totalSellQuantity fs) with h | h | h
  · have ht : tradeTypeOf fs = TradeType.SHORT := by
      unfold tradeTypeOf
      rw [if_neg (fun hgt => absurd h (not_lt_of_gt hgt)), if_pos h]
    have hn : netQuantityOf fs = totalSellQuantity fs - totalBuyQuantity fs := by
      unfold netQuantityOf
      rw [if_neg (fun hgt => absurd h (not_lt_of_gt hgt)), if_pos h]
    simp only [closedQuantityOf, originalQuantityOf, openingFills, closingFills, ht, hn,
      reduceCtorEq, if_false, totalBuyQuantity, totalSellQuantity]
    ring
  · have h0 : netQuantityOf fs = 0 := by
      unfold netQuantityOf
      rw [h]
      simp
    have h2 : totalQuantity (buyFills fs) = totalQuantity (sellFills fs) := h
    cases htt : tradeTypeOf fs with
    | LONG =>
        simp only [closedQuantityOf, originalQuantityOf, openingFills, closingFills, htt, h0,
          add_zero]
        simp [h2]
    | SHORT =>
        simp only [closedQuantityOf, originalQuantityOf, openingFills, closingFills, htt, h0,
          add_zero]
        simp [h2]
  · have ht : tradeTypeOf fs = TradeType.LONG := by
      unfold tradeTypeOf
      rw [if_pos h]
    have hn : netQuantityOf fs = totalBuyQuantity fs - totalSellQuantity fs := by
      unfold netQuantityOf
      rw [if_pos h]
    simp only [closedQuantityOf, originalQuantityOf, openingFills, closingFills, ht, hn,
      eq_self_iff_true, if_true, ite_true, totalBuyQuantity, totalSellQuantity]
    ring

/-! ## Claims -/

/-- C5: for every position, the reducer snapshot satisfies
originalQuantity = sum of opening-side fill quantities, and
closedQuantity + netQuantity = originalQuantity. -/
theorem C5_conservation (status : TradeStatus) (fs : List Fill) (lp : Option ℚ) :
    (reduceGroup status fs lp).originalQuantity =
        ((openingFills fs).map Fill.quantity).sum ∧
    closedQuantityOf fs + (reduceGroup status fs lp).netQuantity =
        (reduceGroup status fs lp).originalQuantity := by
  constructor
  · simpa [reduceGroup, originalQuantityOf] using totalQuantity_eq_sum (openingFills fs)
  · simpa [reduceGroup] using closed_add_net_eq_original fs

/-- C3: for every closed position the reducer pnl is closing-side value
minus opening-side value minus total fees for LONG, and the reverse
difference minus total fees for SHORT (for LONG the closing side is the
sell side, for SHORT the buy side). -/
theorem C3_closed_pnl (fs : List Fill) (lp : Option ℚ) :
    ((reduceGroup TradeStatus.CLOSED fs lp).pnl =
      if (reduceGroup TradeStatus.CLOSED fs lp).tradeType = TradeType.LONG then
        totalValue (closingFills fs) - totalValue (openingFills fs) - totalFeesOf fs
      else
        totalValue (openingFills fs) - totalValue (closingFills fs) - totalFeesOf fs) ∧
    (reduceGroup TradeStatus.CLOSED fs lp).pnl =
      totalValue (sellFills fs) - totalValue (buyFills fs) - totalFeesOf fs := by
  constructor
  · show pnlOf TradeStatus.CLOSED fs lp = _
    unfold pnlOf
    by_cases ht : tradeTypeOf fs = TradeType.LONG <;> simp [ht, reduceGroup]
  · show pnlOf TradeStatus.CLOSED fs lp = _
    unfold pnlOf
    by_cases ht : tradeTypeOf fs = TradeType.LONG <;>
      simp [ht, openingFills, closingFills]

/-- C9 (amended): a position with zero fills reduces without any exception
to a snapshot with netQuantity 0, pnl 0 and exposed quantity 0, but its
tradeType is the concrete direction SHORT (the flat-position tie-break
firstFill side-equals-buy check is false for a missing first fill),
not an undefined or error-flagged value. -/
theorem C9_amended_zero_fills :
    (reduceGroup TradeStatus.OPEN [] none).netQuantity = 0 ∧
    (reduceGroup TradeStatus.OPEN [] none).pnl = 0 ∧
    (reduceGroup TradeStatus.OPEN [] none).quantity = 0 ∧
    (reduceGroup TradeStatus.OPEN [] none).tradeType = TradeType.SHORT := by
  refine ⟨?_, ?_, ?_, ?_⟩ <;>
    simp [reduceGroup, netQuantityOf, pnlOf, totalFeesOf, totalOpenFeesOf,
      totalCloseFeesOf, totalNightFeesOf, totalQuantity, totalBuyQuantity,
      totalSellQuantity, buyFills, sellFills, tradeTypeOf, earliestFill,
      isPartiallyCloseDOf, originalQuantityOf, openingFills]

/-- C9 counterexample: the claim expects tradeType to be left
undefined/error-flagged for a zero-fill position; the reducer instead
assigns the concrete direction SHORT. -/
theorem C9_counterexample_tradeType_short :
    (reduceGroup TradeStatus.OPEN [] none).tradeType = TradeType.SHORT := by
  simp [reduceGroup, tradeTypeOf, earliestFill, totalBuyQuantity,
    totalSellQuantity, buyFills, sellFills, totalQuantity]


/-- C4 counterexample: on Scenario D the aggregator does not return 300.
The running sums are [50, -200, 440, 240, 390] with peaks
[50, 50, 440, 440, 440], so the drawdowns are [0, 250, 0, 200, 50]. -/
theorem C4_counterexample_not_300 :
    calculateMaxDrawdown scenarioDTrades ≠ 300 := by
  norm_num +decide [calculateMaxDrawdown, scenarioDTrades, sortByClosedAt, insertByClosedAt]

/-- C4 (amended): on the chronological sequence [+50, -250, +640, -200,
+150] the maximum drawdown computed by calculateMaxDrawdown is 250 (peak 50
against running sum -200), not 300. -/
theorem C4_amended_drawdown_250 :
    calculateMaxDrawdown scenarioDTrades = 250 := by
  norm_num +decide [calculateMaxDrawdown, scenarioDTrades, sortByClosedAt, insertByClosedAt]

/-- C2: on an open, partially closed position (0 < net < original), the
reducer reports the realized leg as closing-side value against the closed
fraction of the opening value minus all fees (sign per direction), the
unrealized leg as the latest-price delta on the remaining net quantity with
no fee deduction, and exposes pnl = unrealizedPnl. -/
theorem C2_partial_close_pnl (fs : List Fill) (lp : ℚ) (hlp : 0 < lp)
    (h1 : 0 < netQuantityOf fs) (h2 : netQuantityOf fs < originalQuantityOf fs) :
    ((reduceGroup TradeStatus.OPEN fs (some lp)).tradeType = TradeType.LONG →
      (reduceGroup TradeStatus.OPEN fs (some lp)).realizedPnl =
        some (totalValue (closingFills fs)
          - totalValue (openingFills fs) * (closedQuantityOf fs / originalQuantityOf fs)
          - totalFeesOf fs)) ∧
    ((reduceGroup TradeStatus.OPEN fs (some lp)).tradeType = TradeType.SHORT →
      (reduceGroup TradeStatus.OPEN fs (some lp)).realizedPnl =
        some (totalValue (openingFills fs) * (closedQuantityOf fs / originalQuantityOf fs)
          - totalValue (closingFills fs) - totalFeesOf fs)) ∧
    ((reduceGroup TradeStatus.OPEN fs (some lp)).tradeType = TradeType.LONG →
      (reduceGroup TradeStatus.OPEN fs (some lp)).unrealizedPnl =
        some ((lp - openPriceOf fs) * netQuantityOf fs)) ∧
    ((reduceGroup TradeStatus.OPEN fs (some lp)).tradeType = TradeType.SHORT →
      (reduceGroup TradeStatus.OPEN fs (some lp)).unrealizedPnl =
        some ((openPriceOf fs - lp) * netQuantityOf fs)) ∧
    (reduceGroup TradeStatus.OPEN fs (some lp)).unrealizedPnl =
      some ((reduceGroup TradeStatus.OPEN fs (some lp)).pnl) := by
  have hp : isPartiallyCloseDOf TradeStatus.OPEN fs = true := by
    simp [isPartiallyCloseDOf, h1, h2]
  refine ⟨fun ht => ?_, fun ht => ?_, fun ht => ?_, fun ht => ?_, ?_⟩ <;>
    simp only [reduceGroup] at *
  · simp [hp, realizedPnlOf, ht]
  · simp [hp, realizedPnlOf, ht]
  · simp [hp, unrealizedPnlOf, ht, hlp]
  · simp [hp, unrealizedPnlOf, ht, hlp]
  · simp [hp, pnlOf]

/-- Witness for C2: the partially closed example position satisfies the
hypotheses and the conclusion of C2_partial_close_pnl at latest price
160. -/
theorem C2_partial_close_pnl_witness :
    (0:ℚ) < 160 ∧ 0 < netQuantityOf pEx ∧ netQuantityOf pEx < originalQuantityOf pEx ∧
    (((reduceGroup TradeStatus.OPEN pEx (some 160)).tradeType = TradeType.LONG →
      (reduceGroup TradeStatus.OPEN pEx (some 160)).realizedPnl =
        some (totalValue (closingFills pEx)
          - totalValue (openingFills pEx) * (closedQuantityOf pEx / originalQuantityOf pEx)
          - totalFeesOf pEx)) ∧
    ((reduceGroup TradeStatus.OPEN pEx (some 160)).tradeType = TradeType.SHORT →
      (reduceGroup TradeStatus.OPEN pEx (some 160)).realizedPnl =
        some (totalValue (openingFills pEx) * (closedQuantityOf pEx / originalQuantityOf pEx)
          - totalValue (closingFills pEx) - totalFeesOf pEx)) ∧
    ((reduceGroup TradeStatus.OPEN pEx (some 160)).tradeType = TradeType.LONG →
      (reduceGroup TradeStatus.OPEN pEx (some 160)).unrealizedPnl =
        some ((160 - openPriceOf pEx) * netQuantityOf pEx)) ∧
    ((reduceGroup TradeStatus.OPEN pEx (some 160)).tradeType = TradeType.SHORT →
      (reduceGroup TradeStatus.OPEN pEx (some 160)).unrealizedPnl =
        some ((openPriceOf pEx - 160) * netQuantityOf pEx)) ∧
    (reduceGroup TradeStatus.OPEN pEx (some 160)).unrealizedPnl =
      some ((reduceGroup TradeStatus.OPEN pEx (some 160)).pnl)) :=
  ⟨by norm_num,
   by norm_num +decide [netQuantityOf, totalBuyQuantity, totalSellQuantity, buyFills, sellFills,
     totalQuantity, pEx, fEx, pExClose],
   by norm_num +decide [netQuantityOf, originalQuantityOf, openingFills, closingFills, tradeTypeOf,
     totalBuyQuantity, totalSellQuantity, buyFills, sellFills, totalQuantity, pEx, fEx,
     pExClose],
   C2_partial_close_pnl pEx 160 (by norm_num)
     (by norm_num +decide [netQuantityOf, totalBuyQuantity, totalSellQuantity, buyFills, sellFills,
       totalQuantity, pEx, fEx, pExClose])
     (by norm_num +decide [netQuantityOf, originalQuantityOf, openingFills, closingFills, tradeTypeOf,
       totalBuyQuantity, totalSellQuantity, buyFills, sellFills, totalQuantity, pEx, fEx,
       pExClose])⟩

/-- C7: for an open position with no closing-side fills the reducer pnl is
the latest-price delta times net quantity minus total fees when a positive
latest price is known, and exactly -totalFees when the latest price is
absent or zero (no invented mark is used). -/
theorem C7_open_full_pnl (fs : List Fill) (h : closingFills fs = []) :
    ((reduceGroup TradeStatus.OPEN fs none).pnl = -totalFeesOf fs) ∧
    ((reduceGroup TradeStatus.OPEN fs (some 0)).pnl = -totalFeesOf fs) ∧
    ∀ lp : ℚ, 0 < lp →
      (reduceGroup TradeStatus.OPEN fs (some lp)).pnl =
        (if tradeTypeOf fs = TradeType.LONG then
          (lp - openPriceOf fs) * netQuantityOf fs - totalFeesOf fs
        else
          (openPriceOf fs - lp) * netQuantityOf fs - totalFeesOf fs) := by
  have hno : netQuantityOf fs = originalQuantityOf fs := by
    have hc := closed_add_net_eq_original fs
    rw [closedQuantityOf, h] at hc
    simpa [totalQuantity] using hc
  have hp : isPartiallyCloseDOf TradeStatus.OPEN fs = false := by
    simp [isPartiallyCloseDOf, hno]
  refine ⟨?_, ?_, fun lp hlp => ?_⟩
  · by_cases ht : tradeTypeOf fs = TradeType.LONG <;> simp [reduceGroup, pnlOf, hp, ht]
  · by_cases ht : tradeTypeOf fs = TradeType.LONG <;> simp [reduceGroup, pnlOf, hp, ht]
  · by_cases ht : tradeTypeOf fs = TradeType.LONG <;> simp [reduceGroup, pnlOf, hp, ht, hlp]

/-- Witness for C7: the single-opening-fill LONG example has no
closing-side fills and satisfies the conclusion of C7_open_full_pnl. -/
theorem C7_open_full_pnl_witness :
    closingFills [fEx] = [] ∧
    (((reduceGroup TradeStatus.OPEN [fEx] none).pnl = -totalFeesOf [fEx]) ∧
    ((reduceGroup TradeStatus.OPEN [fEx] (some 0)).pnl = -totalFeesOf [fEx]) ∧
    ∀ lp : ℚ, 0 < lp →
      (reduceGroup TradeStatus.OPEN [fEx] (some lp)).pnl =
        (if tradeTypeOf [fEx] = TradeType.LONG then
          (lp - openPriceOf [fEx]) * netQuantityOf [fEx] - totalFeesOf [fEx]
        else
          (openPriceOf [fEx] - lp) * netQuantityOf [fEx] - totalFeesOf [fEx])) :=
  ⟨by norm_num +decide [closingFills, tradeTypeOf, totalBuyQuantity, totalSellQuantity, buyFills,
     sellFills, totalQuantity, earliestFill, fEx],
   C7_open_full_pnl [fEx]
     (by norm_num +decide [closingFills, tradeTypeOf, totalBuyQuantity, totalSellQuantity, buyFills,
       sellFills, totalQuantity, earliestFill, fEx])⟩

/-- C8 (amended): the breakeven price shown by the position details modal
divides the total fees by the snapshot quantity field, which equals the net
quantity whenever the net quantity is positive; the divisor is not clamped
to max(netQuantity, 1). -/
theorem C8_amended_breakeven (status : TradeStatus) (fs : List Fill) (lp : Option ℚ)
    (h : 0 < netQuantityOf fs) :
    breakevenPriceOf (reduceGroup status fs lp) =
      if tradeTypeOf fs = TradeType.LONG then
        openPriceOf fs + totalFeesOf fs / netQuantityOf fs
      else
        openPriceOf fs - totalFeesOf fs / netQuantityOf fs := by
  by_cases ht : tradeTypeOf fs = TradeType.LONG <;>
    simp [breakevenPriceOf, reduceGroup, ht, abs_of_pos h, h.ne']

/-- Witness for C8 (amended): the single-fill LONG example has positive net
quantity 10 and breakeven 150 + 3.75/10. -/
theorem C8_amended_breakeven_witness :
    0 < netQuantityOf [fEx] ∧
    breakevenPriceOf (reduceGroup TradeStatus.OPEN [fEx] none) =
      (if tradeTypeOf [fEx] = TradeType.LONG then
        openPriceOf [fEx] + totalFeesOf [fEx] / netQuantityOf [fEx]
      else
        openPriceOf [fEx] - totalFeesOf [fEx] / netQuantityOf [fEx]) :=
  ⟨by norm_num +decide [netQuantityOf, totalBuyQuantity, totalSellQuantity, buyFills, sellFills,
     totalQuantity, fEx],
   C8_amended_breakeven TradeStatus.OPEN [fEx] none
     (by norm_num +decide [netQuantityOf, totalBuyQuantity, totalSellQuantity, buyFills, sellFills,
       totalQuantity, fEx])⟩

/-- C8 counterexample: on the closed example position the net quantity is 0
and quantity falls back to 10, so the modal computes 150 + 23.75/10 =
152.375 while the specified formula with divisor max(netQuantity, 1) = 1
gives 150 + 23.75 = 173.75. -/
theorem C8_counterexample_closed_position :
    breakevenPriceOf (reduceGroup TradeStatus.CLOSED closedFillsEx none) ≠
      breakevenPriceSpecC8 (reduceGroup TradeStatus.CLOSED closedFillsEx none) := by
  norm_num +decide [breakevenPriceOf, breakevenPriceSpecC8, reduceGroup, tradeTypeOf, netQuantityOf,
    openPriceOf, totalBuyQuantity, totalSellQuantity, buyFills, sellFills, totalQuantity,
    totalValue, totalFeesOf, totalOpenFeesOf, totalCloseFeesOf, totalNightFeesOf,
    earliestFill, closedFillsEx, fEx]

/-! ## Lifecycle close path -/

theorem daysHeldOf_self (t : ℤ) : daysHeldOf t t = 0 := by
  unfold daysHeldOf
  simp

theorem daysHeldOf_within_one_day (o c : ℤ) (h1 : 0 < c - o) (h2 : c - o ≤ 86400000) :
    daysHeldOf o c = 1 := by
  unfold daysHeldOf
  rw [Int.ceil_eq_iff]
  refine ⟨?_, ?_⟩
  · have hx : (0:ℚ) < ((c - o : ℤ) : ℚ) := by exact_mod_cast h1
    have hd : (0:ℚ) < ((c - o : ℤ) : ℚ) / 86400000 := by positivity
    push_cast
    push_cast at hd
    linarith
  · push_cast
    rw [div_le_one (by norm_num)]
    have : ((c - o : ℤ) : ℚ) ≤ 86400000 := by exact_mod_cast h2
    push_cast at this
    linarith

/-- Overwriting the night fee of every fill with the constant c makes the
night-fee sum equal to the fill count times c. -/
theorem night_overwrite_sum (l : List Fill) (c : ℚ) :
    totalNightFeesOf (l.map fun f => { f with night_fee := c }) = l.length * c := by
  induction l with
  | nil => simp [totalNightFeesOf]
  | cons x xs ih =>
      rw [totalNightFeesOf_eq_sum] at ih ⊢
      simp only [List.map_cons, List.sum_cons, List.length_cons, ih]
      push_cast
      ring

/-- On a successful 100% close the stored fills are the old fills plus the
closing fill, every one with its night fee overwritten by
totalNightFees / (pre-insert fill count). -/
theorem full_close_ok_fills (g : Group) (closeMs : ℤ) (closePrice : ℚ) (g2 : Group)
    (h : partialCloseTradeInDb g closeMs closePrice 100 = Except.ok g2) :
    g2.fills = (g.fills ++ [closingFillDb g closeMs closePrice 100]).map
      (fun f =>
        { f with night_fee := totalNightFeesAtClose g closeMs / (g.fills.length : ℚ) }) := by
  unfold partialCloseTradeInDb at h
  rw [if_neg (by norm_num : ¬((100:ℚ) ≤ 0 ∨ (100:ℚ) > 100))] at h
  by_cases h2 : totalOpenQuantityDb g ≤ 0
  · rw [if_pos h2] at h
    exact absurd h (by simp)
  · rw [if_neg h2] at h
    by_cases h3 : quantityToCloseDb g 100 < 1/100
    · rw [if_pos h3] at h
      exact absurd h (by simp)
    · rw [if_neg h3, if_pos (by norm_num : (100:ℚ) ≥ 100)] at h
      injection h with h
      rw [← h]

/-- C10: a 100% close on a group with N pre-existing fills overwrites the
night fee of every fill in the group -- the just-appended closing fill
included -- with totalNightFees/N, so the night-fee sum stored across the
fills becomes totalNightFees * (N+1)/N rather than totalNightFees. -/
theorem C10_full_close_night_fee_overwrite (g : Group) (closeMs : ℤ) (closePrice : ℚ)
    (g2 : Group) (h : partialCloseTradeInDb g closeMs closePrice 100 = Except.ok g2) :
    (∀ f ∈ g2.fills,
      f.night_fee = totalNightFeesAtClose g closeMs / (g.fills.length : ℚ)) ∧
    g2.fills.length = g.fills.length + 1 ∧
    totalNightFeesOf g2.fills =
      totalNightFeesAtClose g closeMs * ((g.fills.length : ℚ) + 1) / (g.fills.length : ℚ) := by
  have hf := full_close_ok_fills g closeMs closePrice g2 h
  refine ⟨?_, ?_, ?_⟩
  · intro f hfm
    rw [hf] at hfm
    rcases List.mem_map.mp hfm with ⟨x, _, rfl⟩
    rfl
  · rw [hf]
    simp
  · rw [hf, night_overwrite_sum]
    simp only [List.length_append, List.length_cons, List.length_nil]
    push_cast
    ring

theorem daysHeldOf_gEx_one_hour : daysHeldOf 0 3600000 = 1 :=
  daysHeldOf_within_one_day 0 3600000 (by norm_num) (by norm_num)

theorem gEx_full_close_ok :
    partialCloseTradeInDb gEx 3600000 155 100 = Except.ok gExClosed := by
  norm_num +decide [partialCloseTradeInDb, quantityToCloseDb, totalOpenQuantityDb,
    netQuantityDb, closingSideDb, closingFillDb, closingFeesDb, proportionalNightFeesDb,
    totalNightFeesAtClose, nightCommissionPerDayOf, totalPositionValueOf, orFalsy,
    totalBuyQuantity, totalSellQuantity, buyFills, sellFills, totalQuantity,
    daysHeldOf_gEx_one_hour, gEx, gExClosed, fEx]

/-- Witness for C10: closing gEx fully at 155 one hour after opening gives
two fills, each carrying night fee 21/73 = totalNightFees/1. -/
theorem C10_full_close_night_fee_overwrite_witness :
    partialCloseTradeInDb gEx 3600000 155 100 = Except.ok gExClosed ∧
    gExClosed.fills.length = gEx.fills.length + 1 ∧
    totalNightFeesOf gExClosed.fills =
      totalNightFeesAtClose gEx 3600000 * ((gEx.fills.length : ℚ) + 1) / (gEx.fills.length : ℚ) := by
  have hok := gEx_full_close_ok
  have hc := C10_full_close_night_fee_overwrite gEx 3600000 155 gExClosed hok
  exact ⟨hok, hc.2.1, hc.2.2⟩

/-- C1 (amended): only a full close at the very timestamp of the opening
records zero night fee (daysHeld = ceil(0) = 0); a close later on the same
calendar day is charged one full day of financing, so the stored night-fee
sum is nightCommissionPerDay * (N+1)/N, which is nonzero whenever the
position value and the effective night rate are nonzero. -/
theorem C1_amended_same_day_night_fee (g : Group) (closeMs : ℤ) (closePrice : ℚ)
    (g2 : Group) (h : partialCloseTradeInDb g closeMs closePrice 100 = Except.ok g2) :
    (closeMs = g.open_at → totalNightFeesOf g2.fills = 0) ∧
    (0 < closeMs - g.open_at → closeMs - g.open_at ≤ 86400000 →
      totalNightFeesOf g2.fills =
        nightCommissionPerDayOf g * ((g.fills.length : ℚ) + 1) / (g.fills.length : ℚ)) := by
  have hf := full_close_ok_fills g closeMs closePrice g2 h
  constructor
  · intro he
    rw [hf, night_overwrite_sum]
    simp only [totalNightFeesAtClose, he, daysHeldOf_self]
    push_cast
    ring
  · intro h1 h2
    rw [hf, night_overwrite_sum]
    simp only [totalNightFeesAtClose, daysHeldOf_within_one_day g.open_at closeMs h1 h2,
      List.length_append, List.length_cons, List.length_nil]
    push_cast
    ring

/-- Witness for C1 (amended): a zero-elapsed full close of gEx stores zero
night fees. -/
theorem C1_amended_same_day_night_fee_witness :
    partialCloseTradeInDb gEx 0 155 100 = Except.ok gExClosed0 ∧
    (0:ℤ) = gEx.open_at ∧ totalNightFeesOf gExClosed0.fills = 0 := by
  have hok : partialCloseTradeInDb gEx 0 155 100 = Except.ok gExClosed0 := by
    norm_num +decide [partialCloseTradeInDb, quantityToCloseDb, totalOpenQuantityDb,
      netQuantityDb, closingSideDb, closingFillDb, closingFeesDb, proportionalNightFeesDb,
      totalNightFeesAtClose, nightCommissionPerDayOf, totalPositionValueOf, orFalsy,
      totalBuyQuantity, totalSellQuantity, buyFills, sellFills, totalQuantity,
      daysHeldOf_self, gEx, gExClosed0, fEx]
  exact ⟨hok, rfl, (C1_amended_same_day_night_fee gEx 0 155 gExClosed0 hok).1 rfl⟩

/-- C1 counterexample: gEx is opened at time 0 and fully closed at time
3600000 (one hour later, the same UTC calendar day), yet the snapshot
rebuilt from the stored fills reports fees.night = 42/73, not 0: daysHeld =
ceil(1h / 24h) = 1 charges a full day of financing even for a same-day
close. -/
theorem C1_counterexample_same_day_close :
    sameUtcDay gEx.open_at 3600000 = true ∧
    partialCloseTradeInDb gEx 3600000 155 100 = Except.ok gExClosed ∧
    (reduceGroup gExClosed.status gExClosed.fills none).feesNight = 42/73 ∧
    ((42:ℚ)/73 ≠ 0) := by
  refine ⟨by decide, gEx_full_close_ok, ?_, by norm_num⟩
  norm_num +decide [reduceGroup, totalNightFeesOf, gExClosed]

/-- C6 (amended): the close path rejects exactly when closePercentage lies
outside (0, 100], there is no open quantity, or the computed closing
quantity is below the 0.01 minimum; closePrice is never validated.  On
success exactly one closing-side fill is appended (its side, quantity and
price as computed), on top of any night-fee rewrite of the 100% branch. -/
theorem C6_amended_close_validation (g : Group) (closeMs : ℤ)
    (closePrice closePercentage : ℚ) :
    ((partialCloseTradeInDb g closeMs closePrice closePercentage).isOk = true ↔
      (0 < closePercentage ∧ closePercentage ≤ 100 ∧ 0 < totalOpenQuantityDb g ∧
        1/100 ≤ quantityToCloseDb g closePercentage)) ∧
    (∀ g2, partialCloseTradeInDb g closeMs closePrice closePercentage = Except.ok g2 →
      g2.fills.length = g.fills.length + 1 ∧
      g2.fills.getLast?.map Fill.side = some (closingSideDb g) ∧
      g2.fills.getLast?.map Fill.quantity = some (quantityToCloseDb g closePercentage) ∧
      g2.fills.getLast?.map Fill.price = some closePrice) := by
  constructor
  · constructor
    · intro hok
      unfold partialCloseTradeInDb at hok
      by_cases h1 : closePercentage ≤ 0 ∨ closePercentage > 100
      · rw [if_pos h1] at hok
        exact absurd hok (by simp [Except.isOk, Except.toBool])
      · rw [if_neg h1] at hok
        push_neg at h1
        by_cases h2 : totalOpenQuantityDb g ≤ 0
        · rw [if_pos h2] at hok
          exact absurd hok (by simp [Except.isOk, Except.toBool])
        · rw [if_neg h2] at hok
          by_cases h3 : quantityToCloseDb g closePercentage < 1/100
          · rw [if_pos h3] at hok
            exact absurd hok (by simp [Except.isOk, Except.toBool])
          · exact ⟨h1.1, h1.2, not_le.mp h2, not_lt.mp h3⟩
    · rintro ⟨hp1, hp2, hq, hmin⟩
      unfold partialCloseTradeInDb
      rw [if_neg (by push_neg; exact ⟨hp1, hp2⟩), if_neg (not_le.mpr hq),
        if_neg (not_lt.mpr hmin)]
      by_cases h4 : closePercentage ≥ 100
      · rw [if_pos h4]
        rfl
      · rw [if_neg h4]
        rfl
  · intro g2 hg2
    unfold partialCloseTradeInDb at hg2
    by_cases h1 : closePercentage ≤ 0 ∨ closePercentage > 100
    · rw [if_pos h1] at hg2
      exact absurd hg2 (by simp)
    · rw [if_neg h1] at hg2
      by_cases h2 : totalOpenQuantityDb g ≤ 0
      · rw [if_pos h2] at hg2
        exact absurd hg2 (by simp)
      · rw [if_neg h2] at hg2
        by_cases h3 : quantityToCloseDb g closePercentage < 1/100
        · rw [if_pos h3] at hg2
          exact absurd hg2 (by simp)
        · rw [if_neg h3] at hg2
          by_cases h4 : closePercentage ≥ 100
          · rw [if_pos h4] at hg2
            injection hg2 with hg2
            rw [← hg2]
            refine ⟨by simp, ?_, ?_, ?_⟩ <;>
              simp [List.map_append, List.getLast?_concat, closingFillDb]
          · rw [if_neg h4] at hg2
            injection hg2 with hg2
            rw [← hg2]
            refine ⟨by simp, ?_, ?_, ?_⟩ <;>
              simp [List.getLast?_concat, closingFillDb]

/-- Witness for C6 (amended): the full close of gEx at 155 satisfies the
validation conditions, succeeds, and appends one sell-side closing fill. -/
theorem C6_amended_close_validation_witness :
    (partialCloseTradeInDb gEx 3600000 155 100).isOk = true ∧
    gExClosed.fills.length = gEx.fills.length + 1 ∧
    gExClosed.fills.getLast?.map Fill.side = some (closingSideDb gEx) := by
  have hok := gEx_full_close_ok
  have hc := C6_amended_close_validation gEx 3600000 155 100
  refine ⟨?_, (hc.2 gExClosed hok).1, (hc.2 gExClosed hok).2.1⟩
  exact hc.1.mpr
    ⟨by norm_num, by norm_num,
     by norm_num +decide [totalOpenQuantityDb, netQuantityDb, totalBuyQuantity,
       totalSellQuantity, buyFills, sellFills, totalQuantity, gEx, fEx],
     by norm_num +decide [quantityToCloseDb, totalOpenQuantityDb, netQuantityDb,
       totalBuyQuantity, totalSellQuantity, buyFills, sellFills, totalQuantity, gEx, fEx]⟩

/-- C6 counterexample: closing 50% of gEx at closePrice = 0 is not
rejected: the call returns ok and appends the closing fill, although the
claim requires rejection whenever closePrice is not positive. -/
theorem C6_counterexample_zero_close_price_accepted :
    ((0:ℚ) ≤ 0) ∧
    partialCloseTradeInDb gEx 3600000 0 50 = Except.ok gExHalfClosedAtZero := by
  refine ⟨le_refl 0, ?_⟩
  norm_num +decide [partialCloseTradeInDb, quantityToCloseDb, totalOpenQuantityDb,
    netQuantityDb, closingSideDb, closingFillDb, closingFeesDb, proportionalNightFeesDb,
    totalNightFeesAtClose, nightCommissionPerDayOf, totalPositionValueOf, orFalsy,
    totalBuyQuantity, totalSellQuantity, buyFills, sellFills, totalQuantity,
    daysHeldOf_gEx_one_hour, gEx, gExHalfClosedAtZero, fEx]

end CrfTracker
